import Mathlib

/-!
Verification development for the AML-BENV0148 repository
(files `ClimateHack23 Resources/dataset.py` and `ClimateHack23 Resources/Resnet_model.py`).

The Python code is shallowly embedded: timestamps are `Int` minutes since the
Unix epoch, the pandas PV table is a list of rows carrying a column schema,
the xarray imagery cube is a structure with a time axis and spatial extents,
and every fallible Python operation returns `Except PyErr`.
-/

/-- Python exception classes that the embedded code can raise. -/
inductive PyErr
  | keyError
  | valueError
  | indexError
  | assertionError
  | nameError (n : String)
deriving DecidableEq

/-! ## Calendar arithmetic (embedding of `datetime.datetime`)

`datetime(y, m, d)` is embedded as the number of minutes since 1970-01-01
of that day's midnight, computed with the standard civil-calendar day count.
Comparison and `timedelta` arithmetic on `datetime` values correspond to
`Int` comparison and addition on minutes. -/

def isLeap (y : Int) : Bool := y % 4 == 0 && (y % 100 != 0 || y % 400 == 0)

def daysInMonth (y m : Int) : Int :=
  if m == 2 then (if isLeap y then 29 else 28)
  else if m == 4 || m == 6 || m == 9 || m == 11 then 30
  else 31

/-- The argument checks performed by the `datetime.datetime` constructor
(`MINYEAR = 1`, `MAXYEAR = 9999`, month and day-of-month ranges). -/
def datetimeValid (y m d : Int) : Bool :=
  1 ≤ y && y ≤ 9999 && 1 ≤ m && m ≤ 12 && 1 ≤ d && d ≤ daysInMonth y m

/-- Days since 1970-01-01 of the civil date `y-m-d` (valid dates only),
via the era-based civil-calendar algorithm. -/
def daysFromCivil (y m d : Int) : Int :=
  let yAdj : Nat := (if m ≤ 2 then y - 1 else y).toNat
  let era : Nat := yAdj / 400
  let yoe : Nat := yAdj % 400
  let mp : Nat := (if m ≤ 2 then m + 9 else m - 3).toNat
  let doy : Nat := (153 * mp + 2) / 5 + d.toNat - 1
  let doe : Nat := yoe * 365 + yoe / 4 - yoe / 100 + doy
  ((era * 146097 + doe : Nat) : Int) - 719468

/-- `datetime(y, m, d)`: validates the components and returns the minutes
since the epoch of that midnight, raising `ValueError` on invalid dates. -/
def mkDatetimeMinutes (y m d : Int) : Except PyErr Int :=
  if datetimeValid y m d then .ok (daysFromCivil y m d * 1440) else .error .valueError

/-- Left-pad a number to two digits, as `strftime` does. -/
def pad2 (n : Nat) : String := if n < 10 then "0" ++ toString n else toString n

/-- Left-pad a number to four digits, as `strftime` does for `%Y`. -/
def pad4 (n : Nat) : String :=
  if n < 10 then "000" ++ toString n
  else if n < 100 then "00" ++ toString n
  else if n < 1000 then "0" ++ toString n
  else toString n

/-- `strftime` with the ISO format used by `dataset.py`
(year-month-day `T` hour:minute:second), for minute-resolution timestamps
(seconds are always `00`).  The civil date is recovered from the day count
by the inverse of the era-based algorithm; the `doe / 146097` correction
term of the standard algorithm is omitted because `doe < 146097`. -/
def strftimeISO (t : Int) : String :=
  let total : Nat := (t + 719468 * 1440).toNat
  let days := total / 1440
  let mins := total % 1440
  let era := days / 146097
  let doe := days % 146097
  let yoe := (doe - doe / 1460 + doe / 36524) / 365
  let y0 := yoe + era * 400
  let doy := doe - (365 * yoe + yoe / 4 - yoe / 100)
  let mp := (5 * doy + 2) / 153
  let d := doy - (153 * mp + 2) / 5 + 1
  let m := if mp < 10 then mp + 3 else mp - 9
  let y := if m ≤ 2 then y0 + 1 else y0
  pad4 y ++ "-" ++ pad2 m ++ "-" ++ pad2 d ++ "T" ++
    pad2 (mins / 60) ++ ":" ++ pad2 (mins % 60) ++ ":00"

/-! ## `Dataset.__init__`: date-string parsing and the sites default -/

/-- Python `str.split("-")` on the characters of a date string.  The empty
string splits to one empty field, as in Python. -/
def splitDash : List Char → List (List Char)
  | [] => [[]]
  | c :: rest =>
      let r := splitDash rest
      if c == '-' then [] :: r
      else (c :: r.headD []) :: r.tail

/-- Decimal digit accumulation for `int()`. -/
def parseDigitsAux : Nat → List Char → Option Nat
  | acc, [] => some acc
  | acc, c :: rest =>
      if c.isDigit then parseDigitsAux (acc * 10 + (c.toNat - 48)) rest else none

/-- Python `int(s)` on one component of a date string: an optional sign
followed by at least one decimal digit, `ValueError` otherwise (whitespace
trimming and underscore grouping are not used by the dates at hand). -/
def pyInt : List Char → Except PyErr Int
  | [] => .error .valueError
  | c :: rest =>
      if c == '-' then
        match rest with
        | [] => .error .valueError
        | _ =>
            match parseDigitsAux 0 rest with
            | some n => .ok (-(n : Int))
            | none => .error .valueError
      else
        match parseDigitsAux 0 (c :: rest) with
        | some n => .ok (n : Int)
        | none => .error .valueError

/-- `list(map(int, s.split("-")))` from `Dataset.__init__`. -/
def parseDate (s : String) : Except PyErr (List Int) :=
  (splitDash s.toList).mapM pyInt

/-- The site-location map's `"hrv"` level: an association list from site id
to the site's `(x, y)` pixel coordinates. -/
abbrev SiteLocs := List (Nat × Int × Int)

/-- The configuration state a `Dataset` object holds after `__init__`. -/
structure DatasetCfg where
  isIncident : Bool
  startDate : List Int
  endDate : List Int
  cropSize : Nat
  horizon : Nat
  sites : List Nat
deriving DecidableEq

/-- `Dataset.__init__`: stores the flags, defaults `sites` to the keys of
`site_locations["hrv"]` whenever the passed value is falsy (`None` or an
empty list), and parses both date strings with `int`.  The only failures at
construction time are non-integer date-string components. -/
def datasetInit (locs : SiteLocs) (isIncident : Bool) (startDate endDate : String)
    (cropSize horizon : Nat) (sites : Option (List Nat)) : Except PyErr DatasetCfg := do
  let sitesV : List Nat :=
    match sites with
    | some (s :: rest) => s :: rest
    | _ => locs.map (fun e => e.1)
  let sd ← parseDate startDate
  let ed ← parseDate endDate
  .ok { isIncident := isIncident, startDate := sd, endDate := ed,
        cropSize := cropSize, horizon := horizon, sites := sitesV }

/-! ## `Dataset._get_image_times` -/

/-- `start_date[0] / [1] / [2]`: `IndexError` when the parsed list has fewer
than three components; further components are ignored, as in the source. -/
def dateTriple : List Int → Except PyErr (Int × Int × Int)
  | y :: m :: d :: _ => .ok (y, m, d)
  | _ => .error .indexError

/-- The inner `while current_time.time() < end_time` loop of
`_get_image_times`, over minutes-of-day: starts at 08:00 (480) and steps by
60 minutes while strictly before 17:00 (1020). -/
def innerLoop (off : Nat) : List Nat :=
  if _hlt : off < 1020 then off :: innerLoop (off + 60) else []
termination_by 1020 - off
decreasing_by omega

/-- The outer `while date <= max_date` loop of `_get_image_times`: for each
day (midnight, in minutes) up to and including `dmax`, yield the day's
anchors, then advance by one day (1440 minutes). -/
def outerLoop (d dmax : Int) : List Int :=
  if _hle : d ≤ dmax then
    (innerLoop 480).map (fun (off : Nat) => d + (off : Int)) ++ outerLoop (d + 1440) dmax
  else []
termination_by (dmax + 1440 - d).toNat
decreasing_by omega

/-- `Dataset._get_image_times`, fully materialised: index the two parsed
date lists, build both `datetime`s, then run the day/hour loops.  Indexing
and `datetime` construction errors escape to the iterator's caller exactly
as in the source (the generator body is not inside any `try`). -/
def getImageTimes (startDate endDate : List Int) : Except PyErr (List Int) := do
  let (y1, m1, d1) ← dateTriple startDate
  let minDate ← mkDatetimeMinutes y1 m1 d1
  let (y2, m2, d2) ← dateTriple endDate
  let maxDate ← mkDatetimeMinutes y2 m2 d2
  .ok (outerLoop minDate maxDate)

/-! ## The pandas PV table and the numpy values extracted from it -/

/-- One row of the PV table: the two index levels (timestamp, site id) and
the row's column values in schema order. -/
structure PVRow where
  time : Int
  site : Nat
  vals : List Int
deriving DecidableEq

/-- The PV table: a column schema and the rows. -/
structure PVTable where
  cols : List String
  rows : List PVRow
deriving DecidableEq

/-- `pv.xs(slice(str(a), str(b)), drop_level=False)`: pandas label slices
are inclusive at both ends, and ISO timestamp strings compare
chronologically. -/
def pvSliceTime (pv : PVTable) (a b : Int) : PVTable :=
  { pv with rows := pv.rows.filter (fun r => a ≤ r.time && r.time ≤ b) }

/-- Position of a column label in the schema. -/
def colIndex (cols : List String) (c : String) : Option Nat :=
  match cols with
  | [] => none
  | c0 :: rest => if c0 == c then some 0 else (colIndex rest c).map (fun i => i + 1)

/-- Positions of all selected column labels; `KeyError` when one is absent
from the schema. -/
def colIdxList (cols : List String) : List String → Except PyErr (List Nat)
  | [] => .ok []
  | c :: cs =>
      match colIndex cols c with
      | some i =>
          match colIdxList cols cs with
          | .ok rest => .ok (i :: rest)
          | .error e => .error e
      | none => .error .keyError

/-- `frame[[c1, ..., cn]]`: column selection, `KeyError` when a label is
absent from the schema. -/
def pvSelectCols (pv : PVTable) (cs : List String) : Except PyErr PVTable :=
  match colIdxList pv.cols cs with
  | .ok idxs =>
      .ok { cols := cs,
            rows := pv.rows.map (fun r => { r with vals := idxs.map (fun i => r.vals.getD i 0) }) }
  | .error e => .error e

/-- `frame[c]`: single-column selection producing a pandas Series (the two
index levels are kept), `KeyError` when the label is absent. -/
def pvGetCol (pv : PVTable) (c : String) : Except PyErr (List (Int × Nat × Int)) :=
  match colIndex pv.cols c with
  | some i => .ok (pv.rows.map (fun r => (r.time, r.site, r.vals.getD i 0)))
  | none => .error .keyError

/-- The numpy arrays produced by `.to_numpy()` and `.squeeze(-1)` in the
per-site extraction: a 0-d scalar, a 1-d vector or a 2-d matrix. -/
inductive Np
  | scalar (x : Int)
  | vec (v : List Int)
  | mat (m : List (List Int))
deriving DecidableEq

/-- `.shape` of an embedded numpy array.  Matrices built by the pipeline
have uniform row length, so the length of the first row is the second
shape component. -/
def Np.shape : Np → List Nat
  | .scalar _ => []
  | .vec v => [v.length]
  | .mat m => [m.length, (m.headD []).length]

/-- The pandas object the per-site extraction runs on: a sliced DataFrame
(plain mode and incidence-mode features) or a Series (incidence-mode
targets after `["power"]`). -/
inductive PdObj
  | frame (pv : PVTable)
  | series (rows : List (Int × Nat × Int))
deriving DecidableEq

/-- `.xs(site, level=1).to_numpy()`: keep the rows of one site,
`KeyError` when the site label matches no row.  A DataFrame gives a
2-d values matrix, a Series a 1-d vector. -/
def pdXsSite (o : PdObj) (site : Nat) : Except PyErr Np :=
  match o with
  | .frame pv =>
      let rs := pv.rows.filter (fun r => r.site == site)
      if rs.isEmpty then .error .keyError else .ok (.mat (rs.map (fun r => r.vals)))
  | .series rows =>
      let rs := rows.filter (fun r => r.2.1 == site)
      if rs.isEmpty then .error .keyError else .ok (.vec (rs.map (fun r => r.2.2)))

/-- numpy `.squeeze(-1)`: drops the last axis when its extent is exactly 1
and raises `ValueError` otherwise (on a 0-d array the axis itself is out of
range, also an error). -/
def npSqueezeLast : Np → Except PyErr Np
  | .scalar _ => .error .valueError
  | .vec v => if v.length == 1 then .ok (.scalar (v.headD 0)) else .error .valueError
  | .mat m =>
      if (m.headD []).length == 1 then .ok (.vec (m.map (fun r => r.headD 0)))
      else .error .valueError

/-! ## The xarray imagery cube and Python slice indexing -/

/-- The imagery cube `hrv["data"]`: a time axis and the three further axes
(row, column, channel) of the 4-d array, with the cell values given by a
function of the four indices. -/
structure HRVCube where
  times : List Int
  rows : Nat
  cols : Nat
  channels : Nat
  val : Int → Nat → Nat → Nat → Int

/-- Normalisation of one slice endpoint by Python/numpy basic slicing:
a negative index counts from the end of the axis (clamped below at 0), a
non-negative one is clamped above at the axis length. -/
def pySliceIdx (n : Nat) (i : Int) : Nat :=
  if i < 0 then n - (-i).toNat else min i.toNat n

/-- The axis positions selected by the Python slice `a : b` on an axis of
length `n`. -/
def pySliceRange (n : Nat) (a b : Int) : List Nat :=
  (List.range (pySliceIdx n b - pySliceIdx n a)).map (fun j => pySliceIdx n a + j)

/-- `hrv_data[:, y-c : y+c, x-c : x+c, 0]` evaluated on the time-selected
cube: for each selected timestamp, the Python-sliced row and column windows
of channel 0. -/
def hrvCropArr (cube : HRVCube) (sel : List Int) (y0 x0 : Int) (c : Nat) :
    List (List (List Int)) :=
  sel.map (fun t =>
    (pySliceRange cube.rows (y0 - c) (y0 + c)).map (fun y =>
      (pySliceRange cube.cols (x0 - c) (x0 + c)).map (fun x => cube.val t y x 0)))

/-- `.shape` of the 3-d crop.  The crop is built with uniform inner lengths,
so head lengths give the trailing extents (an empty time axis reports 0, and
is only ever compared against the tick count 12). -/
def cropShape (cr : List (List (List Int))) : List Nat :=
  [cr.length, (cr.headD []).length, ((cr.headD []).headD []).length]

/-! ## `Dataset.__iter__` -/

/-- One yielded sample: `(time_ids, site_id, site_features, hrv_features,
site_targets)`. -/
structure Sample where
  timeIds : List String
  siteId : Nat
  features : Np
  hrvCrop : List (List (List Int))
  targets : Np
deriving DecidableEq

/-- `pandas.date_range(start, end, freq="5min")` followed by `strftime`:
the 5-minute ticks from `t+1h` through `t + horizon h + 55min`, formatted.
`date_range` is an external collaborator and is embedded by its semantics:
the ticks `start + 5k ≤ end`, empty when `end < start`. -/
def dateRange5 (a b : Int) : List Int :=
  if a ≤ b then (List.range ((b - a).toNat / 5 + 1)).map (fun (k : Nat) => a + 5 * (k : Int)) else []

/-- The `time_ids` list built at the top of the per-anchor body. -/
def timeIdsOf (t : Int) (horizon : Nat) : List String :=
  (dateRange5 (t + 60) (t + 60 * horizon + 55)).map strftimeISO

/-- The per-anchor state of `__iter__` just before the site loop starts. -/
structure AnchorCtx where
  timeIds : List String
  pvFeatures : PdObj
  pvTargets : PdObj
  hrvSel : List Int

/-- The per-anchor part of `__iter__`'s body: build `time_ids`, slice the PV
table to the history hour (selecting the two incidence columns in incidence
mode), slice it to the target window (keeping only `"power"` in incidence
mode), and select the imagery timestamps of the history hour.  These
statements run before the `try`, so their failures (absent columns) escape
the iterator. -/
def anchorCtx (pv : PVTable) (hrv : HRVCube) (cfg : DatasetCfg) (t : Int) :
    Except PyErr AnchorCtx := do
  let tids := timeIdsOf t cfg.horizon
  let firstHour := pvSliceTime pv t (t + 55)
  let pvFeat : PdObj ←
    if cfg.isIncident then
      (pvSelectCols firstHour ["power", "angle_of_incidence_radians"]).map PdObj.frame
    else .ok (.frame firstHour)
  let tgtSlice := pvSliceTime pv (t + 60) (t + 60 * cfg.horizon + 55)
  let pvTgt : PdObj ←
    if cfg.isIncident then (pvGetCol tgtSlice "power").map PdObj.series
    else .ok (.frame tgtSlice)
  let hrvSel := hrv.times.filter (fun u => t ≤ u && u ≤ t + 55)
  .ok { timeIds := tids, pvFeatures := pvFeat, pvTargets := pvTgt, hrvSel := hrvSel }

/-- `assert cond` inside the `try`: `AssertionError` when the condition is
false. -/
def assertPy (b : Bool) : Except PyErr Unit :=
  if b then .ok () else .error .assertionError

/-- `self._site_locations["hrv"][site]`: `KeyError` when the site id is
absent from the location map. -/
def locLookup (locs : SiteLocs) (site : Nat) : Except PyErr (Int × Int) :=
  match locs.find? (fun e => e.1 == site) with
  | some e => .ok (e.2.1, e.2.2)
  | none => .error .keyError

/-- The body of the `try` block in the site loop of `__iter__`: extract and
squeeze the per-site features and targets, check the two PV shape
assertions, look up the site's pixel coordinates, take the spatial crop of
channel 0 (an `IndexError` when the cube has no channel axis entries), and
check the crop shape assertion.  Any error here is the exception the `except`
clause swallows. -/
def extractSite (cube : HRVCube) (locs : SiteLocs) (cfg : DatasetCfg)
    (ctx : AnchorCtx) (site : Nat) : Except PyErr Sample :=
  match (pdXsSite ctx.pvFeatures site).bind npSqueezeLast with
  | .error e => .error e
  | .ok sf =>
  match (pdXsSite ctx.pvTargets site).bind npSqueezeLast with
  | .error e => .error e
  | .ok st =>
  match assertPy (if cfg.isIncident then
      sf.shape == [12, 2] && st.shape == [12 * cfg.horizon]
    else
      sf.shape == [12] && st.shape == [12 * cfg.horizon]) with
  | .error e => .error e
  | .ok _ =>
  match locLookup locs site with
  | .error e => .error e
  | .ok xy =>
  if cube.channels == 0 then .error .indexError
  else
    match assertPy (cropShape (hrvCropArr cube ctx.hrvSel xy.2 xy.1 cfg.cropSize) ==
        [12, cfg.cropSize, cfg.cropSize]) with
    | .error e => .error e
    | .ok _ =>
        .ok { timeIds := ctx.timeIds, siteId := site, features := sf,
              hrvCrop := hrvCropArr cube ctx.hrvSel xy.2 xy.1 cfg.cropSize, targets := st }

/-- One (anchor, site) extraction attempt end to end: the per-anchor setup
followed by the guarded per-site body. -/
def extractPair (pv : PVTable) (hrv : HRVCube) (locs : SiteLocs) (cfg : DatasetCfg)
    (t : Int) (site : Nat) : Except PyErr Sample := do
  let ctx ← anchorCtx pv hrv cfg t
  extractSite hrv locs cfg ctx site

/-- The `for site in self._sites` loop with its `try ... except: continue`:
a successful extraction is yielded, any exception skips to the next site. -/
def siteLoop (cube : HRVCube) (locs : SiteLocs) (cfg : DatasetCfg)
    (ctx : AnchorCtx) : List Nat → List Sample
  | [] => []
  | site :: rest =>
      match extractSite cube locs cfg ctx site with
      | .ok s => s :: siteLoop cube locs cfg ctx rest
      | .error _ => siteLoop cube locs cfg ctx rest

/-- The `for time in self._get_image_times()` loop over the anchor list:
per-anchor setup errors escape, the site loop contributes its successes in
order. -/
def anchorLoop (pv : PVTable) (hrv : HRVCube) (locs : SiteLocs) (cfg : DatasetCfg) :
    List Int → Except PyErr (List Sample)
  | [] => .ok []
  | t :: rest =>
      match anchorCtx pv hrv cfg t with
      | .error e => .error e
      | .ok ctx =>
          match anchorLoop pv hrv locs cfg rest with
          | .error e => .error e
          | .ok tail => .ok (siteLoop hrv locs cfg ctx cfg.sites ++ tail)

/-- `Dataset.__iter__`, fully materialised: the anchor enumeration followed
by the anchor loop.  The result is the list of all yielded samples, or the
first exception that escapes the iterator. -/
def iterSamples (pv : PVTable) (hrv : HRVCube) (locs : SiteLocs) (cfg : DatasetCfg) :
    Except PyErr (List Sample) := do
  let anchors ← getImageTimes cfg.startDate cfg.endDate
  anchorLoop pv hrv locs cfg anchors

/-! ## Helper lemmas about the iterator -/

theorem except_toOption_ok {α : Type} (e : Except PyErr α) (a : α) :
    e.toOption = some a ↔ e = .ok a := by
  cases e <;> simp [Except.toOption]

/-- The site loop is exactly the per-site successes, in site order. -/
theorem siteLoop_eq_filterMap (cube : HRVCube) (locs : SiteLocs) (cfg : DatasetCfg)
    (ctx : AnchorCtx) (sites : List Nat) :
    siteLoop cube locs cfg ctx sites =
      sites.filterMap (fun site => (extractSite cube locs cfg ctx site).toOption) := by
  induction sites with
  | nil => rfl
  | cons a l ih =>
      simp only [siteLoop, List.filterMap_cons]
      cases h : extractSite cube locs cfg ctx a <;> simp [Except.toOption, ih]

theorem siteLoop_mem (cube : HRVCube) (locs : SiteLocs) (cfg : DatasetCfg)
    (ctx : AnchorCtx) (sites : List Nat) (s : Sample) :
    s ∈ siteLoop cube locs cfg ctx sites ↔
      ∃ site ∈ sites, extractSite cube locs cfg ctx site = .ok s := by
  rw [siteLoop_eq_filterMap]
  simp only [List.mem_filterMap]
  constructor
  · rintro ⟨site, hmem, hopt⟩
    exact ⟨site, hmem, (except_toOption_ok _ _).mp hopt⟩
  · rintro ⟨site, hmem, hok⟩
    exact ⟨site, hmem, (except_toOption_ok _ _).mpr hok⟩

/-- Every sample the anchor loop emits comes from one fully successful
(anchor, site) extraction. -/
theorem anchorLoop_mem (pv : PVTable) (hrv : HRVCube) (locs : SiteLocs) (cfg : DatasetCfg)
    (ts : List Int) (out : List Sample)
    (h : anchorLoop pv hrv locs cfg ts = .ok out) :
    ∀ s ∈ out, ∃ t ∈ ts, ∃ ctx, anchorCtx pv hrv cfg t = .ok ctx ∧
      ∃ site ∈ cfg.sites, extractSite hrv locs cfg ctx site = .ok s := by
  induction ts generalizing out with
  | nil =>
      simp only [anchorLoop] at h
      cases h
      intro s hs
      cases hs
  | cons t rest ih =>
      simp only [anchorLoop] at h
      cases hctx : anchorCtx pv hrv cfg t with
      | error e => rw [hctx] at h; cases h
      | ok ctx =>
          rw [hctx] at h
          cases htail : anchorLoop pv hrv locs cfg rest with
          | error e => rw [htail] at h; cases h
          | ok tail =>
              rw [htail] at h
              cases h
              intro s hs
              rcases List.mem_append.mp hs with hleft | hright
              · rcases (siteLoop_mem hrv locs cfg ctx cfg.sites s).mp hleft with ⟨site, hm, hok⟩
                exact ⟨t, List.mem_cons_self t rest, ctx, hctx, site, hm, hok⟩
              · rcases ih tail htail s hright with ⟨t', ht', ctx', hctx', site, hm, hok⟩
                exact ⟨t', List.mem_cons_of_mem t ht', ctx', hctx', site, hm, hok⟩

/-- What a successful run of the guarded per-site body guarantees about the
sample it yields: the identifiers it carries, the shapes enforced by the two
`assert` statements, and the crop it embeds. -/
theorem extractSite_ok_facts {cube : HRVCube} {locs : SiteLocs} {cfg : DatasetCfg}
    {ctx : AnchorCtx} {site : Nat} {s : Sample}
    (h : extractSite cube locs cfg ctx site = .ok s) :
    s.siteId = site ∧ s.timeIds = ctx.timeIds ∧
    (cfg.isIncident = false → s.features.shape = [12]) ∧
    (cfg.isIncident = true → s.features.shape = [12, 2]) ∧
    s.targets.shape = [12 * cfg.horizon] ∧
    ∃ x y : Int, locLookup locs site = .ok (x, y) ∧
      s.hrvCrop = hrvCropArr cube ctx.hrvSel y x cfg.cropSize ∧
      cropShape s.hrvCrop = [12, cfg.cropSize, cfg.cropSize] := by
  unfold extractSite at h
  split at h
  · exact Except.noConfusion h
  next sf hsf =>
  split at h
  · exact Except.noConfusion h
  next st hst =>
  split at h
  · exact Except.noConfusion h
  next u hassert =>
  split at h
  · exact Except.noConfusion h
  next xy hloc =>
  split at h
  · exact Except.noConfusion h
  next hch =>
  split at h
  · exact Except.noConfusion h
  next u2 hcrop =>
  cases h
  have hpvshape : (if cfg.isIncident then
      sf.shape == [12, 2] && st.shape == [12 * cfg.horizon]
    else
      sf.shape == [12] && st.shape == [12 * cfg.horizon]) = true := by
    by_contra hb
    simp only [assertPy, if_neg hb] at hassert
    exact Except.noConfusion hassert
  have hcropshape : (cropShape (hrvCropArr cube ctx.hrvSel xy.2 xy.1 cfg.cropSize) ==
      [12, cfg.cropSize, cfg.cropSize]) = true := by
    by_contra hb
    simp only [assertPy, if_neg hb] at hcrop
    exact Except.noConfusion hcrop
  refine ⟨rfl, rfl, ?_, ?_, ?_, xy.1, xy.2, ?_, rfl, ?_⟩
  · intro hinc
    rw [hinc] at hpvshape
    simp only [Bool.false_eq_true, if_false, Bool.and_eq_true, beq_iff_eq] at hpvshape
    exact hpvshape.1
  · intro hinc
    rw [hinc] at hpvshape
    simp only [if_true, Bool.and_eq_true, beq_iff_eq] at hpvshape
    exact hpvshape.1
  · cases hic : cfg.isIncident <;> rw [hic] at hpvshape <;>
      simp only [Bool.false_eq_true, if_false, if_true, Bool.and_eq_true,
        beq_iff_eq] at hpvshape <;> exact hpvshape.2
  · cases hxy : xy
    simpa [hxy] using hloc
  · exact eq_of_beq hcropshape

/-! ## Lemmas about the anchor-time enumeration -/

/-- The inner hour loop yields exactly the nine minutes-of-day
08:00, 09:00, ..., 16:00. -/
theorem innerLoop_480 : innerLoop 480 = [480, 540, 600, 660, 720, 780, 840, 900, 960] := by
  simp [innerLoop]

theorem innerLoop_mem (off : Nat) :
    off ∈ innerLoop 480 ↔ ∃ k : Nat, k < 9 ∧ off = 480 + 60 * k := by
  rw [innerLoop_480]
  constructor
  · intro hm
    fin_cases hm
    exacts [⟨0, by norm_num⟩, ⟨1, by norm_num⟩, ⟨2, by norm_num⟩, ⟨3, by norm_num⟩,
      ⟨4, by norm_num⟩, ⟨5, by norm_num⟩, ⟨6, by norm_num⟩, ⟨7, by norm_num⟩, ⟨8, by norm_num⟩]
  · rintro ⟨k, hk, rfl⟩
    interval_cases k <;> decide

theorem outerLoop_step (d dmax : Int) (h : d ≤ dmax) :
    outerLoop d dmax =
      (innerLoop 480).map (fun (off : Nat) => d + (off : Int)) ++ outerLoop (d + 1440) dmax := by
  rw [outerLoop]
  simp [h]

theorem outerLoop_stop (d dmax : Int) (h : ¬ d ≤ dmax) : outerLoop d dmax = [] := by
  rw [outerLoop]
  simp [h]


theorem outerLoop_length (n : Nat) :
    ∀ d : Int, (outerLoop d (d + 1440 * n)).length = (n + 1) * 9 := by
  induction n with
  | zero =>
      intro d
      rw [outerLoop_step d _ (by omega), outerLoop_stop _ _ (by omega)]
      simp [innerLoop_480]
  | succ k ih =>
      intro d
      have hc : ((k + 1 : Nat) : Int) = (k : Int) + 1 := by push_cast; ring
      rw [hc, show d + 1440 * ((k : Int) + 1) = d + 1440 + 1440 * (k : Int) from by ring,
        outerLoop_step d _ (by omega)]
      simp only [List.length_append, List.length_map, innerLoop_480, List.length_cons,
        List.length_nil]
      rw [ih (d + 1440)]
      ring

theorem outerLoop_mem (n : Nat) :
    ∀ d t : Int, t ∈ outerLoop d (d + 1440 * n) ↔
      ∃ i : Nat, i ≤ n ∧ ∃ k : Nat, k < 9 ∧ t = d + 1440 * i + 480 + 60 * k := by
  induction n with
  | zero =>
      intro d t
      rw [outerLoop_step d _ (by omega), outerLoop_stop _ _ (by omega)]
      simp only [List.append_nil, List.mem_map]
      constructor
      · rintro ⟨off, hoff, rfl⟩
        rcases (innerLoop_mem off).mp hoff with ⟨k, hk, rfl⟩
        exact ⟨0, le_refl 0, k, hk, by push_cast; ring⟩
      · rintro ⟨i, hi, k, hk, rfl⟩
        have hi0 : i = 0 := by omega
        subst hi0
        exact ⟨480 + 60 * k, (innerLoop_mem _).mpr ⟨k, hk, rfl⟩, by push_cast; ring⟩
  | succ m ih =>
      intro d t
      have hc : ((m + 1 : Nat) : Int) = (m : Int) + 1 := by push_cast; ring
      rw [hc, show d + 1440 * ((m : Int) + 1) = d + 1440 + 1440 * (m : Int) from by ring,
        outerLoop_step d _ (by omega), List.mem_append, List.mem_map]
      constructor
      · rintro (⟨off, hoff, rfl⟩ | hrest)
        · rcases (innerLoop_mem off).mp hoff with ⟨k, hk, rfl⟩
          exact ⟨0, by omega, k, hk, by push_cast; ring⟩
        · rcases (ih (d + 1440) t).mp hrest with ⟨i, hi, k, hk, rfl⟩
          exact ⟨i + 1, by omega, k, hk, by push_cast; ring⟩
      · rintro ⟨i, hi, k, hk, rfl⟩
        cases i with
        | zero =>
            exact Or.inl ⟨480 + 60 * k, (innerLoop_mem _).mpr ⟨k, hk, rfl⟩, by push_cast; ring⟩
        | succ j =>
            exact Or.inr ((ih (d + 1440) _).mpr ⟨j, by omega, k, hk, by push_cast; ring⟩)

theorem outerLoop_pairwise (n : Nat) :
    ∀ d : Int, (outerLoop d (d + 1440 * n)).Pairwise (· < ·) := by
  have hblock : ∀ d : Int,
      ((innerLoop 480).map (fun (off : Nat) => d + (off : Int))).Pairwise (· < ·) := by
    intro d
    rw [List.pairwise_map, innerLoop_480]
    refine List.Pairwise.imp ?_
      (by decide : List.Pairwise (· < ·) [480, 540, 600, 660, 720, 780, 840, 900, 960])
    intro a b h
    have hab : (a : Int) < b := by exact_mod_cast h
    omega
  induction n with
  | zero =>
      intro d
      rw [outerLoop_step d _ (by omega), outerLoop_stop _ _ (by omega), List.append_nil]
      exact hblock d
  | succ m ih =>
      intro d
      have hc : ((m + 1 : Nat) : Int) = (m : Int) + 1 := by push_cast; ring
      rw [hc, show d + 1440 * ((m : Int) + 1) = d + 1440 + 1440 * (m : Int) from by ring,
        outerLoop_step d _ (by omega), List.pairwise_append]
      refine ⟨hblock d, ih (d + 1440), ?_⟩
      intro x hx y hy
      rcases List.mem_map.mp hx with ⟨off, hoff, rfl⟩
      rcases (innerLoop_mem off).mp hoff with ⟨k, hk, rfl⟩
      rcases (outerLoop_mem m (d + 1440) y).mp hy with ⟨i, hi, k2, hk2, rfl⟩
      push_cast
      omega

theorem timeIdsOf_length (t : Int) (horizon : Nat) :
    (timeIdsOf t horizon).length = 12 * horizon := by
  unfold timeIdsOf dateRange5
  cases horizon with
  | zero =>
      rw [if_neg (by push_cast; omega)]
      simp
  | succ k =>
      rw [if_pos (by push_cast; omega)]
      simp only [List.length_map, List.length_range]
      have hrw : t + 60 * ((k + 1 : Nat) : Int) + 55 - (t + 60) = 60 * (k : Int) + 55 := by
        push_cast; ring
      rw [hrw]
      omega

/-- C2 support: the full anchor enumeration for valid date triples. -/
theorem getImageTimes_ok (y1 m1 d1 y2 m2 d2 : Int) (r1 r2 : List Int)
    (hv1 : datetimeValid y1 m1 d1 = true) (hv2 : datetimeValid y2 m2 d2 = true) :
    getImageTimes (y1 :: m1 :: d1 :: r1) (y2 :: m2 :: d2 :: r2) =
      .ok (outerLoop (daysFromCivil y1 m1 d1 * 1440) (daysFromCivil y2 m2 d2 * 1440)) := by
  simp [getImageTimes, dateTriple, mkDatetimeMinutes, hv1, hv2, Bind.bind, Except.bind]

/-- C2: for every configuration with start_date ≤ end_date (valid date
triples, compared as days), the anchor-time enumeration terminates and
yields exactly (days from start to end inclusive) × 9 anchor times, namely
one per hour from 08:00 through 16:00 inclusive on each day, in
chronological order. -/
theorem anchorEnumeration_spec (y1 m1 d1 y2 m2 d2 : Int) (r1 r2 : List Int)
    (hv1 : datetimeValid y1 m1 d1 = true) (hv2 : datetimeValid y2 m2 d2 = true)
    (hle : daysFromCivil y1 m1 d1 ≤ daysFromCivil y2 m2 d2) :
    ∃ ts : List Int,
      getImageTimes (y1 :: m1 :: d1 :: r1) (y2 :: m2 :: d2 :: r2) = .ok ts ∧
      ts.length = ((daysFromCivil y2 m2 d2 - daysFromCivil y1 m1 d1).toNat + 1) * 9 ∧
      ts.Pairwise (· < ·) ∧
      (∀ t : Int, t ∈ ts ↔ ∃ day : Int,
        daysFromCivil y1 m1 d1 ≤ day ∧ day ≤ daysFromCivil y2 m2 d2 ∧
        ∃ k : Nat, k < 9 ∧ t = 1440 * day + 480 + 60 * k) := by
  set D1 := daysFromCivil y1 m1 d1 with hD1
  set D2 := daysFromCivil y2 m2 d2 with hD2
  set n : Nat := (D2 - D1).toNat with hn
  have hdm : D2 * 1440 = D1 * 1440 + 1440 * (n : Int) := by rw [hn]; omega
  refine ⟨outerLoop (D1 * 1440) (D2 * 1440),
    getImageTimes_ok y1 m1 d1 y2 m2 d2 r1 r2 hv1 hv2, ?_, ?_, ?_⟩
  · rw [hdm, outerLoop_length n (D1 * 1440)]
  · rw [hdm]
    exact outerLoop_pairwise n (D1 * 1440)
  · intro t
    rw [hdm, outerLoop_mem n (D1 * 1440) t]
    constructor
    · rintro ⟨i, hi, k, hk, rfl⟩
      exact ⟨D1 + i, by omega, by omega, k, hk, by ring⟩
    · rintro ⟨day, h1, h2, k, hk, rfl⟩
      exact ⟨(day - D1).toNat, by omega, k, hk, by omega⟩

theorem anchorEnumeration_spec_witness :
    datetimeValid 2020 7 1 = true ∧ datetimeValid 2020 7 2 = true ∧
    daysFromCivil 2020 7 1 ≤ daysFromCivil 2020 7 2 ∧
    ∃ ts : List Int,
      getImageTimes [2020, 7, 1] [2020, 7, 2] = .ok ts ∧
      ts.length = ((daysFromCivil 2020 7 2 - daysFromCivil 2020 7 1).toNat + 1) * 9 ∧
      ts.Pairwise (· < ·) ∧
      (∀ t : Int, t ∈ ts ↔ ∃ day : Int,
        daysFromCivil 2020 7 1 ≤ day ∧ day ≤ daysFromCivil 2020 7 2 ∧
        ∃ k : Nat, k < 9 ∧ t = 1440 * day + 480 + 60 * k) :=
  ⟨by decide, by decide, by decide,
    anchorEnumeration_spec 2020 7 1 2020 7 2 [] [] (by decide) (by decide) (by decide)⟩

/-! ## Per-anchor setup: success and determinacy lemmas -/

theorem colIndex_isSome {cols : List String} {c : String} (h : c ∈ cols) :
    ∃ i, colIndex cols c = some i := by
  induction cols with
  | nil => cases h
  | cons a l ih =>
      by_cases hac : (a == c) = true
      · exact ⟨0, by simp [colIndex, hac]⟩
      · rcases List.mem_cons.mp h with rfl | hm
        · simp at hac
        · rcases ih hm with ⟨i, hi⟩
          exact ⟨i + 1, by simp [colIndex, hac, hi]⟩

theorem colIdxList_ok {cols : List String} : ∀ {cs : List String},
    (∀ c ∈ cs, c ∈ cols) → ∃ idxs, colIdxList cols cs = .ok idxs := by
  intro cs
  induction cs with
  | nil => exact fun _ => ⟨[], rfl⟩
  | cons c rest ih =>
      intro hall
      rcases colIndex_isSome (hall c (by simp)) with ⟨i, hi⟩
      rcases ih (fun x hx => hall x (by simp [hx])) with ⟨idxs, hidxs⟩
      exact ⟨i :: idxs, by simp [colIdxList, hi, hidxs]⟩

/-- Whenever the PV table's schema holds the columns the active feature mode
selects, the per-anchor setup cannot fail. -/
theorem anchorCtx_ok (pv : PVTable) (hrv : HRVCube) (cfg : DatasetCfg) (t : Int)
    (hcols : cfg.isIncident = true →
      "power" ∈ pv.cols ∧ "angle_of_incidence_radians" ∈ pv.cols) :
    ∃ ctx, anchorCtx pv hrv cfg t = .ok ctx := by
  unfold anchorCtx
  cases hic : cfg.isIncident with
  | false =>
      simp only [Bind.bind, Except.bind, Bool.false_eq_true, if_false]
      exact ⟨_, rfl⟩
  | true =>
      obtain ⟨hp, ha⟩ := hcols hic
      obtain ⟨idxs, hidxs⟩ := @colIdxList_ok pv.cols ["power", "angle_of_incidence_radians"]
        (by intro c hc; rcases List.mem_cons.mp hc with rfl | hc2
            · exact hp
            · simp only [List.mem_singleton] at hc2; subst hc2; exact ha)
      obtain ⟨ip, hip⟩ := @colIndex_isSome pv.cols "power" hp
      simp only [Bind.bind, Except.bind, Except.map, if_true, pvSelectCols, pvGetCol,
        pvSliceTime, hidxs, hip]
      exact ⟨_, rfl⟩

/-- The per-anchor state always carries the `time_ids` labels of its anchor. -/
theorem anchorCtx_ok_timeIds {pv : PVTable} {hrv : HRVCube} {cfg : DatasetCfg} {t : Int}
    {ctx : AnchorCtx} (h : anchorCtx pv hrv cfg t = .ok ctx) :
    ctx.timeIds = timeIdsOf t cfg.horizon := by
  unfold anchorCtx at h
  cases hic : cfg.isIncident <;> rw [hic] at h <;>
    simp only [Bind.bind, Except.bind, Except.map, if_true, if_false, Bool.false_eq_true] at h
  · cases h
    rfl
  · cases hsel : pvSelectCols (pvSliceTime pv t (t + 55)) ["power", "angle_of_incidence_radians"] with
    | error e => rw [hsel] at h; cases h
    | ok q =>
        rw [hsel] at h
        cases hcol : pvGetCol (pvSliceTime pv (t + 60) (t + 60 * cfg.horizon + 55)) "power" with
        | error e => rw [hcol] at h; cases h
        | ok sr =>
            rw [hcol] at h
            cases h
            rfl

/-- With a schema fit for the feature mode, the whole anchor loop succeeds
and its output is the per-anchor concatenation of the per-site successes. -/
theorem anchorLoop_ok_of_ctx (pv : PVTable) (hrv : HRVCube) (locs : SiteLocs)
    (cfg : DatasetCfg)
    (hcols : cfg.isIncident = true →
      "power" ∈ pv.cols ∧ "angle_of_incidence_radians" ∈ pv.cols) :
    ∀ ts : List Int, ∃ out, anchorLoop pv hrv locs cfg ts = .ok out ∧
      out = (ts.map (fun t => cfg.sites.filterMap
        (fun site => (extractPair pv hrv locs cfg t site).toOption))).flatten := by
  intro ts
  induction ts with
  | nil => exact ⟨[], rfl, by simp⟩
  | cons t rest ih =>
      obtain ⟨ctx, hctx⟩ := anchorCtx_ok pv hrv cfg t hcols
      obtain ⟨tail, htail, htl⟩ := ih
      refine ⟨siteLoop hrv locs cfg ctx cfg.sites ++ tail, ?_, ?_⟩
      · simp [anchorLoop, hctx, htail]
      · rw [List.map_cons, List.flatten_cons, htl, siteLoop_eq_filterMap]
        congr 1
        apply List.filterMap_congr
        intro site _
        simp [extractPair, hctx, Bind.bind, Except.bind]

/-- A successful full iteration splits into the anchor enumeration and the
anchor loop. -/
theorem iterSamples_ok_inv {pv : PVTable} {hrv : HRVCube} {locs : SiteLocs}
    {cfg : DatasetCfg} {out : List Sample}
    (h : iterSamples pv hrv locs cfg = .ok out) :
    ∃ anchors, getImageTimes cfg.startDate cfg.endDate = .ok anchors ∧
      anchorLoop pv hrv locs cfg anchors = .ok out := by
  unfold iterSamples at h
  cases hg : getImageTimes cfg.startDate cfg.endDate with
  | error e =>
      rw [hg] at h
      simp only [Bind.bind, Except.bind] at h
      exact Except.noConfusion h
  | ok anchors =>
      rw [hg] at h
      simp only [Bind.bind, Except.bind] at h
      exact ⟨anchors, rfl, h⟩

/-- Every yielded sample originates in one fully successful (anchor, site)
pair, with the per-anchor setup succeeding at its anchor. -/
theorem iterSamples_sample_facts {pv : PVTable} {hrv : HRVCube} {locs : SiteLocs}
    {cfg : DatasetCfg} {out : List Sample}
    (h : iterSamples pv hrv locs cfg = .ok out) :
    ∀ s ∈ out, ∃ t ctx, anchorCtx pv hrv cfg t = .ok ctx ∧
      ∃ site ∈ cfg.sites, extractSite hrv locs cfg ctx site = .ok s := by
  intro s hs
  obtain ⟨anchors, _, hloop⟩ := iterSamples_ok_inv h
  obtain ⟨t, _, ctx, hctx, site, hsite, hok⟩ := anchorLoop_mem pv hrv locs cfg anchors out hloop s hs
  exact ⟨t, ctx, hctx, site, hsite, hok⟩

/-- Concrete-evaluation helper: once the anchor list is known, the iterator
output is the structural per-pair success form. -/
theorem iterSamples_eval (pv : PVTable) (hrv : HRVCube) (locs : SiteLocs) (cfg : DatasetCfg)
    (anchors : List Int)
    (hA : getImageTimes cfg.startDate cfg.endDate = .ok anchors)
    (hcols : cfg.isIncident = true →
      "power" ∈ pv.cols ∧ "angle_of_incidence_radians" ∈ pv.cols) :
    iterSamples pv hrv locs cfg = .ok ((anchors.map (fun t => cfg.sites.filterMap
      (fun site => (extractPair pv hrv locs cfg t site).toOption))).flatten) := by
  obtain ⟨out, hloop, hform⟩ := anchorLoop_ok_of_ctx pv hrv locs cfg hcols anchors
  rw [← hform]
  unfold iterSamples
  rw [hA]
  simp only [Bind.bind, Except.bind]
  exact hloop

/-! ## Concrete scenarios -/

/-- The nine anchor datetimes of 2020-07-01, in minutes since the epoch
(day number 18444, minutes 26559360 + 480 + 60k). -/
def anchorsJul1 : List Int :=
  [26559840, 26559900, 26559960, 26560020, 26560080, 26560140, 26560200, 26560260, 26560320]

theorem getImageTimes_jul1 :
    getImageTimes [2020, 7, 1] [2020, 7, 1] = .ok anchorsJul1 := by
  rw [getImageTimes_ok 2020 7 1 2020 7 1 [] [] (by decide) (by decide)]
  rw [show daysFromCivil 2020 7 1 * 1440 = 26559360 from by decide]
  rw [outerLoop_step _ _ (by decide), outerLoop_stop _ _ (by decide), innerLoop_480]
  rfl

/-- 2020-07-01T00:00 in minutes since the epoch. -/
def jul1Midnight : Int := 26559360

/-- PV table of the boundary scenario: one `power` column, sites 0 and 9,
5-minute ticks covering 08:00–09:55 of 2020-07-01. -/
def pvE : PVTable :=
  { cols := ["power"],
    rows := (List.range 24).map
        (fun k => { time := jul1Midnight + 480 + 5 * (k : Int), site := 0, vals := [(k : Int)] })
      ++ (List.range 24).map
        (fun k => { time := jul1Midnight + 480 + 5 * (k : Int), site := 9, vals := [(k : Int)] }) }

/-- Imagery cube of the boundary scenario: a 1×1 spatial grid with one
channel, covering the same 08:00–09:55 ticks. -/
def hrvE : HRVCube :=
  { times := (List.range 24).map (fun k => jul1Midnight + 480 + 5 * (k : Int)),
    rows := 1, cols := 1, channels := 1, val := fun _ _ _ _ => 7 }

/-- Locations of the boundary scenario: site 0 at pixel (0,0) (on the grid
edge), site 9 at (5,5) (outside the 1×1 grid). -/
def locsE : SiteLocs := [(0, 0, 0), (9, 5, 5)]

/-- Configuration of the boundary scenario: plain mode, 2020-07-01 only,
crop_half_extent 1, horizon 1, sites 0 and 9. -/
def cfgE : DatasetCfg :=
  { isIncident := false, startDate := [2020, 7, 1], endDate := [2020, 7, 1],
    cropSize := 1, horizon := 1, sites := [0, 9] }

/-- The boundary configuration restricted to site 42, a site id absent from
the location map. -/
def cfgE42 : DatasetCfg := { cfgE with sites := [42] }

theorem iterSamples_E :
    iterSamples pvE hrvE locsE cfgE = .ok ((anchorsJul1.map (fun t => cfgE.sites.filterMap
      (fun site => (extractPair pvE hrvE locsE cfgE t site).toOption))).flatten) :=
  iterSamples_eval pvE hrvE locsE cfgE anchorsJul1 getImageTimes_jul1 (by decide)

/-- PV table of the spec's end-to-end example: one `power` column, sites 1
(A) and 2 (B), 5-minute ticks covering 2020-07-01 00:00 through 23:55. -/
def pvC4 : PVTable :=
  { cols := ["power"],
    rows := (List.range 288).map
        (fun k => { time := jul1Midnight + 5 * (k : Int), site := 1, vals := [(k : Int)] })
      ++ (List.range 288).map
        (fun k => { time := jul1Midnight + 5 * (k : Int), site := 2, vals := [(k : Int)] }) }

/-- Imagery cube of the end-to-end example: a 3×3 grid with one channel,
covering the same day at 5-minute ticks. -/
def hrvC4 : HRVCube :=
  { times := (List.range 288).map (fun k => jul1Midnight + 5 * (k : Int)),
    rows := 3, cols := 3, channels := 1, val := fun _ _ _ _ => 1 }

/-- Locations of the end-to-end example: site 1 (A) at pixel (1,1), site 2
(B) at (5,5), outside the 3×3 grid. -/
def locsC4 : SiteLocs := [(1, 1, 1), (2, 5, 5)]

/-- Configuration of the end-to-end example: plain mode,
start_date = end_date = 2020-07-01, crop_half_extent 1, horizon 1. -/
def cfgC4 : DatasetCfg :=
  { isIncident := false, startDate := [2020, 7, 1], endDate := [2020, 7, 1],
    cropSize := 1, horizon := 1, sites := [1, 2] }

/-! ## Python slice and crop shape lemmas -/

theorem pySliceRange_length (n : Nat) (a b : Int) :
    (pySliceRange n a b).length = pySliceIdx n b - pySliceIdx n a := by
  simp [pySliceRange]

/-- Passing the crop-shape assertion pins both Python slice lengths of the
crop window to crop_size. -/
theorem cropShape_assert {cube : HRVCube} {sel : List Int} {y x : Int} {c : Nat}
    (h : cropShape (hrvCropArr cube sel y x c) = [12, c, c]) :
    (pySliceRange cube.rows (y - c) (y + c)).length = c ∧
    (pySliceRange cube.cols (x - c) (x + c)).length = c := by
  unfold cropShape hrvCropArr at h
  cases hsel : sel with
  | nil => rw [hsel] at h; simp at h
  | cons t rest =>
      rw [hsel] at h
      simp only [List.map_cons, List.headD_cons, List.length_map, List.length_cons,
        List.cons.injEq, and_true] at h
      obtain ⟨h1, h2, h3⟩ := h
      refine ⟨h2, ?_⟩
      cases hY : pySliceRange cube.rows (y - c) (y + c) with
      | nil =>
          rw [hY] at h2
          simp only [List.length_nil] at h2
          subst h2
          rw [pySliceRange_length]
          simp
      | cons y0 ys =>
          rw [hY] at h3
          simpa using h3

/-! ## Claim theorems for the Extractor -/

/-- C1: during iteration every (anchor, site) extraction is attempted in
order; a pair whose guarded extraction raises contributes nothing (no
partial sample), iteration continues with the next site and eventually the
next anchor, and no per-pair failure escapes: the run returns normally with
exactly the successful samples, in pair order. -/
theorem failurePolicy_spec (pv : PVTable) (hrv : HRVCube) (locs : SiteLocs)
    (cfg : DatasetCfg) (anchors : List Int)
    (hA : getImageTimes cfg.startDate cfg.endDate = .ok anchors)
    (hcols : cfg.isIncident = true →
      "power" ∈ pv.cols ∧ "angle_of_incidence_radians" ∈ pv.cols) :
    ∃ out, iterSamples pv hrv locs cfg = .ok out ∧
      out = (anchors.map (fun t => cfg.sites.filterMap
        (fun site => (extractPair pv hrv locs cfg t site).toOption))).flatten ∧
      ∀ s ∈ out, ∃ t ∈ anchors, ∃ site ∈ cfg.sites,
        extractPair pv hrv locs cfg t site = .ok s := by
  refine ⟨_, iterSamples_eval pv hrv locs cfg anchors hA hcols, rfl, ?_⟩
  intro s hs
  rcases List.mem_flatten.mp hs with ⟨block, hb, hsb⟩
  rcases List.mem_map.mp hb with ⟨t, ht, rfl⟩
  rcases List.mem_filterMap.mp hsb with ⟨site, hsite, hopt⟩
  exact ⟨t, ht, site, hsite, (except_toOption_ok _ _).mp hopt⟩

theorem failurePolicy_spec_witness :
    getImageTimes cfgE.startDate cfgE.endDate = .ok anchorsJul1 ∧
    ∃ out, iterSamples pvE hrvE locsE cfgE = .ok out ∧
      out = (anchorsJul1.map (fun t => cfgE.sites.filterMap
        (fun site => (extractPair pvE hrvE locsE cfgE t site).toOption))).flatten ∧
      ∀ s ∈ out, ∃ t ∈ anchorsJul1, ∃ site ∈ cfgE.sites,
        extractPair pvE hrvE locsE cfgE t site = .ok s :=
  ⟨getImageTimes_jul1,
    failurePolicy_spec pvE hrvE locsE cfgE anchorsJul1 getImageTimes_jul1 (by decide)⟩

/-- C3 counterexample: with crop_half_extent 1 the boundary scenario yields
a sample whose hrv crop has shape (12, 1, 1) — the asserted
(12, crop_size, crop_size) — and not (12, 2, 2), the extent of the nominal
crop window `[y-1 : y+1] × [x-1 : x+1]` the spec describes. -/
theorem yieldedShapes_counterexample :
    ((iterSamples pvE hrvE locsE cfgE).toOption.getD []).any
      (fun s => cropShape s.hrvCrop == [12, cfgE.cropSize, cfgE.cropSize] &&
        cropShape s.hrvCrop != [12, 2 * cfgE.cropSize, 2 * cfgE.cropSize]) = true := by
  rw [iterSamples_E]
  rfl

/-- C3 (amended): every yielded sample satisfies the shapes the code's
assertions enforce — pv history 12 ticks (12×2 in incidence mode), targets
12·horizon ticks, and an hrv crop of shape
(12, crop_half_extent, crop_half_extent): the half-extent itself, not the
crop window's nominal width 2·crop_half_extent. -/
theorem yieldedShapes_spec (pv : PVTable) (hrv : HRVCube) (locs : SiteLocs)
    (cfg : DatasetCfg) (out : List Sample)
    (h : iterSamples pv hrv locs cfg = .ok out) :
    ∀ s ∈ out,
      (cfg.isIncident = false → s.features.shape = [12]) ∧
      (cfg.isIncident = true → s.features.shape = [12, 2]) ∧
      s.targets.shape = [12 * cfg.horizon] ∧
      cropShape s.hrvCrop = [12, cfg.cropSize, cfg.cropSize] := by
  intro s hs
  obtain ⟨t, ctx, hctx, site, hsite, hok⟩ := iterSamples_sample_facts h s hs
  obtain ⟨hsid, htids, hplain, hinc, htgt, x, y, hloc, hcrop, hcshape⟩ :=
    extractSite_ok_facts hok
  exact ⟨hplain, hinc, htgt, hcshape⟩

theorem yieldedShapes_spec_witness :
    ∃ out, iterSamples pvE hrvE locsE cfgE = .ok out ∧ out.length = 1 ∧
      ∀ s ∈ out,
        (cfgE.isIncident = false → s.features.shape = [12]) ∧
        (cfgE.isIncident = true → s.features.shape = [12, 2]) ∧
        s.targets.shape = [12 * cfgE.horizon] ∧
        cropShape s.hrvCrop = [12, cfgE.cropSize, cfgE.cropSize] :=
  ⟨_, iterSamples_E, by rfl,
    fun s hs => yieldedShapes_spec pvE hrvE locsE cfgE _ iterSamples_E s hs⟩

set_option maxRecDepth 10000 in
/-- C4: the spec's end-to-end example evaluated on the code.  Sites A=1 at
pixel (1,1) and B=2 at (5,5) of a 3×3 grid, full-day 5-minute PV table and
imagery cube, crop_half_extent 1, horizon 1, start = end = 2020-07-01.  The
code yields no sample at all — the crop slice `[y-1 : y+1]` has extent 2
while the shape assertion demands extent crop_size = 1, so even site A
fails every anchor — where the claim expects exactly nine samples for A. -/
theorem endToEndExample_eval : iterSamples pvC4 hrvC4 locsC4 cfgC4 = .ok [] := by
  rw [iterSamples_eval pvC4 hrvC4 locsC4 cfgC4 anchorsJul1 getImageTimes_jul1 (by decide)]
  rfl

/-- C5: for every anchor time and every horizon, the label sequence has
exactly 12·horizon ISO-formatted entries, and every yielded sample carries
a label list and a target vector of that same tick count. -/
theorem targetLabels_spec (horizon : Nat) :
    (∀ t : Int, (timeIdsOf t horizon).length = 12 * horizon) ∧
    (∀ pv hrv locs cfg out, cfg.horizon = horizon →
      iterSamples pv hrv locs cfg = .ok out →
      ∀ s ∈ out, s.timeIds.length = 12 * horizon ∧ s.targets.shape = [12 * horizon]) := by
  refine ⟨fun t => timeIdsOf_length t horizon, ?_⟩
  intro pv hrv locs cfg out hhz h s hs
  obtain ⟨t, ctx, hctx, site, hsite, hok⟩ := iterSamples_sample_facts h s hs
  obtain ⟨-, htids, -, -, htgt, -⟩ := extractSite_ok_facts hok
  subst hhz
  constructor
  · rw [htids, anchorCtx_ok_timeIds hctx, timeIdsOf_length]
  · exact htgt

theorem targetLabels_spec_witness :
    (timeIdsOf 26559840 1).length = 12 * 1 ∧
    ∃ out, iterSamples pvE hrvE locsE cfgE = .ok out ∧ out.length = 1 ∧
      ∀ s ∈ out, s.timeIds.length = 12 * 1 ∧ s.targets.shape = [12 * 1] :=
  ⟨(targetLabels_spec 1).1 26559840, _, iterSamples_E, by rfl,
    fun s hs => (targetLabels_spec 1).2 pvE hrvE locsE cfgE _ rfl iterSamples_E s hs⟩

/-- The site's crop window `[y-c : y+c] × [x-c : x+c]` leaves the imagery
grid: the spec's condition "pixel coordinates within crop_half_extent of the
grid edge" (coordinates not within grid bounds minus the crop margin). -/
def cropOutOfBounds (rowsN colsN c : Nat) (x y : Int) : Bool :=
  y - c < 0 || (rowsN : Int) < y + c || x - c < 0 || (colsN : Int) < x + c

/-- C6 counterexample: site 0 at pixel (0,0) of the 1×1 grid lies within
crop_half_extent 1 of the grid edge (its crop window leaves the grid), yet
a sample is yielded for it: the Python slice `-1 : 1` on an axis of length
1 wraps around to `0 : 1`, so the crop has shape (12, 1, 1) and passes the
shape assertion. -/
theorem edgeSkip_counterexample :
    cropOutOfBounds hrvE.rows hrvE.cols cfgE.cropSize 0 0 = true ∧
    locLookup locsE 0 = .ok (0, 0) ∧
    ((iterSamples pvE hrvE locsE cfgE).toOption.getD []).any
      (fun s => s.siteId == 0) = true := by
  refine ⟨rfl, rfl, ?_⟩
  rw [iterSamples_E]
  rfl

/-- C6 (amended): a site is skipped at every anchor whenever either Python
slice of its crop window has length different from crop_size; being near
the edge does not by itself guarantee skipping, because negative-index
wraparound can give an out-of-bounds site a crop of the asserted shape. -/
theorem edgeSkip_spec (pv : PVTable) (hrv : HRVCube) (locs : SiteLocs) (cfg : DatasetCfg)
    (out : List Sample) (site : Nat) (x y : Int)
    (hloc : locLookup locs site = .ok (x, y))
    (hlen : (pySliceRange hrv.rows (y - cfg.cropSize) (y + cfg.cropSize)).length ≠
        cfg.cropSize ∨
      (pySliceRange hrv.cols (x - cfg.cropSize) (x + cfg.cropSize)).length ≠ cfg.cropSize)
    (h : iterSamples pv hrv locs cfg = .ok out) :
    ∀ s ∈ out, s.siteId ≠ site := by
  intro s hs hsid
  obtain ⟨t, ctx, hctx, site2, hsite2, hok⟩ := iterSamples_sample_facts h s hs
  obtain ⟨hsid2, -, -, -, -, x2, y2, hloc2, hcrop, hcshape⟩ := extractSite_ok_facts hok
  have hsq : site2 = site := by rw [← hsid2, hsid]
  subst hsq
  rw [hloc] at hloc2
  have hxy : x = x2 ∧ y = y2 := by
    cases hloc2
    exact ⟨rfl, rfl⟩
  obtain ⟨rfl, rfl⟩ := hxy
  rw [hcrop] at hcshape
  obtain ⟨hry, hrx⟩ := cropShape_assert hcshape
  rcases hlen with hl | hl
  · exact hl hry
  · exact hl hrx

theorem edgeSkip_spec_witness :
    locLookup locsE 9 = .ok (5, 5) ∧
    (pySliceRange hrvE.rows ((5 : Int) - cfgE.cropSize) ((5 : Int) + cfgE.cropSize)).length ≠
      cfgE.cropSize ∧
    ∃ out, iterSamples pvE hrvE locsE cfgE = .ok out ∧ ∀ s ∈ out, s.siteId ≠ 9 :=
  ⟨rfl, by decide, _, iterSamples_E,
    edgeSkip_spec pvE hrvE locsE cfgE _ 9 5 5 rfl (Or.inl (by decide)) iterSamples_E⟩

/-- C7 counterexample: constructing with site 42, a site id absent from the
location map, succeeds — no fail-fast — and the full iteration surfaces no
error, silently yielding nothing. -/
theorem configErrors_counterexample :
    datasetInit locsE false "2020-7-1" "2020-7-1" 1 1 (some [42]) = .ok cfgE42 ∧
    locLookup locsE 42 = .error .keyError ∧
    iterSamples pvE hrvE locsE cfgE42 = .ok [] := by
  refine ⟨by rfl, rfl, ?_⟩
  rw [iterSamples_eval pvE hrvE locsE cfgE42 anchorsJul1 getImageTimes_jul1 (by decide)]
  rfl

/-- C7 (amended): a date string with a non-integer component fails at
construction; construction never validates site ids (it succeeds whenever
both date strings parse, whatever the sites), and a site id absent from the
location map is silently skipped during iteration — no sample is ever
yielded for it and no error is surfaced. -/
theorem configErrors_spec (locs : SiteLocs) (inc : Bool) (sd ed : String)
    (cs hz : Nat) (sites : Option (List Nat)) :
    (∀ e, parseDate sd = .error e →
      datasetInit locs inc sd ed cs hz sites = .error e) ∧
    (∀ l1 l2, parseDate sd = .ok l1 → parseDate ed = .ok l2 →
      datasetInit locs inc sd ed cs hz sites = .ok
        { isIncident := inc, startDate := l1, endDate := l2, cropSize := cs,
          horizon := hz,
          sites := match sites with
            | some (s :: rest) => s :: rest
            | _ => locs.map (fun e => e.1) }) ∧
    (∀ pv hrv cfg out site, locLookup locs site = .error .keyError →
      iterSamples pv hrv locs cfg = .ok out → ∀ s ∈ out, s.siteId ≠ site) := by
  refine ⟨?_, ?_, ?_⟩
  · intro e he
    simp [datasetInit, he, Bind.bind, Except.bind]
  · intro l1 l2 h1 h2
    simp [datasetInit, h1, h2, Bind.bind, Except.bind]
  · intro pv hrv cfg out site hmiss h s hs hsid
    obtain ⟨t, ctx, hctx, site2, hsite2, hok⟩ := iterSamples_sample_facts h s hs
    obtain ⟨hsid2, -, -, -, -, x2, y2, hloc2, -, -⟩ := extractSite_ok_facts hok
    have hsq : site2 = site := by rw [← hsid2, hsid]
    subst hsq
    rw [hmiss] at hloc2
    exact Except.noConfusion hloc2

theorem configErrors_spec_witness :
    parseDate "2020-x-1" = .error .valueError ∧
    datasetInit locsE false "2020-x-1" "2020-7-1" 1 1 none = .error .valueError ∧
    locLookup locsE 42 = .error .keyError ∧
    ∃ out, iterSamples pvE hrvE locsE cfgE42 = .ok out ∧ ∀ s ∈ out, s.siteId ≠ 42 := by
  have h42 := iterSamples_eval pvE hrvE locsE cfgE42 anchorsJul1 getImageTimes_jul1 (by decide)
  exact ⟨rfl,
    (configErrors_spec locsE false "2020-x-1" "2020-7-1" 1 1 none).1 PyErr.valueError rfl,
    rfl, _, h42,
    (configErrors_spec locsE false "2020-7-1" "2020-7-1" 1 1 (some [42])).2.2
      pvE hrvE cfgE42 _ 42 rfl h42⟩

/-- C10: passing an explicitly empty sites list is indistinguishable from
omitting sites: the Python truthiness default kicks in, and the resulting
configuration monitors every site id of the location map's hrv level — an
empty subset is never honored as empty. -/
theorem emptySites_spec (locs : SiteLocs) (inc : Bool) (sd ed : String) (cs hz : Nat) :
    datasetInit locs inc sd ed cs hz (some []) = datasetInit locs inc sd ed cs hz none ∧
    (∀ cfg, datasetInit locs inc sd ed cs hz (some []) = .ok cfg →
      cfg.sites = locs.map (fun e => e.1)) := by
  constructor
  · rfl
  · intro cfg h
    unfold datasetInit at h
    cases h1 : parseDate sd with
    | error e =>
        rw [h1] at h
        simp only [Bind.bind, Except.bind] at h
        exact Except.noConfusion h
    | ok l1 =>
        rw [h1] at h
        cases h2 : parseDate ed with
        | error e =>
            rw [h2] at h
            simp only [Bind.bind, Except.bind] at h
            exact Except.noConfusion h
        | ok l2 =>
            rw [h2] at h
            simp only [Bind.bind, Except.bind] at h
            cases h
            rfl

theorem emptySites_spec_witness :
    datasetInit locsE false "2020-7-1" "2020-7-1" 1 1 (some []) =
      datasetInit locsE false "2020-7-1" "2020-7-1" 1 1 none ∧
    ∃ cfg, datasetInit locsE false "2020-7-1" "2020-7-1" 1 1 (some []) = .ok cfg ∧
      cfg.sites = [0, 9] := by
  obtain ⟨h1, h2⟩ := emptySites_spec locsE false "2020-7-1" "2020-7-1" 1 1
  refine ⟨h1, ?_⟩
  have hok : datasetInit locsE false "2020-7-1" "2020-7-1" 1 1 (some []) = .ok
      { isIncident := false, startDate := [2020, 7, 1], endDate := [2020, 7, 1],
        cropSize := 1, horizon := 1, sites := [0, 9] } := by rfl
  exact ⟨_, hok, by rw [h2 _ hok]; rfl⟩

/-! ## Embedding of `Resnet_model.py`

The model file is embedded at the level the claims need: Python name
resolution over the module's top-level bindings, and the shape-level
dataflow of the forward pass (tensor values are irrelevant to the claims,
so a tensor is represented by its shape list). -/

/-- Python name resolution against an environment of bound names:
`NameError` when the name is missing. -/
def lookupName (env : List String) (n : String) : Except PyErr Unit :=
  if n ∈ env then .ok () else .error (.nameError n)

/-- The names bound at the top level of `Resnet_model.py` once every
statement before `class ResNetModel` has executed: `torch` and `nn` from
the two import statements, then `device`, `layers`, `conv_block` and
`BasicBlock`.  No statement binds `F` — `torch.nn.functional` is never
made available under that name. -/
def resnetModuleGlobals : List String :=
  ["torch", "nn", "device", "layers", "conv_block", "BasicBlock"]

/-- The names bound in the class body of `ResNetModel` at the moment the
statement `def forward(self, hrv, pv=pv, pv_inc=pv_inc,
use_pv_inc=use_pv_inc)` executes: the two methods defined above it.  The
parameters of `__init__` are not part of any enclosing scope. -/
def resnetClassBodyEnv : List String := ["__init__", "_make_layer"]

/-- Executing the `def forward` statement of the class body: Python
evaluates the three default-argument expressions `pv`, `pv_inc` and
`use_pv_inc` at class-definition time, in the class body environment
extended by the module globals. -/
def resnetClassDefForward : Except PyErr Unit := do
  let _ ← lookupName (resnetClassBodyEnv ++ resnetModuleGlobals) "pv"
  let _ ← lookupName (resnetClassBodyEnv ++ resnetModuleGlobals) "pv_inc"
  lookupName (resnetClassBodyEnv ++ resnetModuleGlobals) "use_pv_inc"

/-- Loading the module `Resnet_model.py`: all statements before the class
succeed (their defaults are literals), so the first fallible step is the
`def forward` statement of the class body. -/
def loadResnetModule : Except PyErr Unit := resnetClassDefForward

/-- Shape of the output of `conv_block`'s 1×1 convolution (stride 1,
padding 0): batch and spatial extents preserved, channels replaced. -/
def conv1x1Shape (outC : Nat) : List Nat → Except PyErr (List Nat)
  | [b, _, h, w] => .ok [b, outC, h, w]
  | _ => .error .valueError

/-- `BasicBlock.forward` at shape level: `conv1` and `conv2`; the optional
1×1 downsample and the additive skip keep this shape; the final statement
`F.relu(out, inplace=False)` resolves the name `F` in the module globals. -/
def basicBlockForward (outC : Nat) (s : List Nat) : Except PyErr (List Nat) := do
  let s1 ← conv1x1Shape outC s
  let s2 ← conv1x1Shape outC s1
  let _ ← lookupName resnetModuleGlobals "F"
  .ok s2

/-- One stage built by `_make_layer`: `n` BasicBlocks in sequence. -/
def stageForward (outC : Nat) : Nat → List Nat → Except PyErr (List Nat)
  | 0, s => .ok s
  | n + 1, s => do
      let s1 ← basicBlockForward outC s
      stageForward outC n s1

/-- `nn.AdaptiveMaxPool2d((1,1))` followed by `torch.flatten(x, 1)`. -/
def poolFlatten : List Nat → Except PyErr (List Nat)
  | [b, c, _, _] => .ok [b, c]
  | _ => .error .valueError

/-- `torch.flatten(pv, start_dim=1)`. -/
def flattenFrom1 : List Nat → Except PyErr (List Nat)
  | b :: rest => .ok [b, rest.prod]
  | [] => .error .valueError

/-- `torch.cat((x, pv), dim=1)` on two 2-d tensors: batch sizes must agree,
widths add. -/
def concatDim1 (a b : List Nat) : Except PyErr (List Nat) :=
  match a, b with
  | [ba, wa], [bb, wb] => if ba == bb then .ok [ba, wa + wb] else .error .valueError
  | _, _ => .error .valueError

/-- The local names bound in `forward`'s own scope by the time line 96
executes in the `use_pv_inc = false` branch: the five parameters plus the
assigned locals.  `predict_length` is a parameter of `__init__` only. -/
def forwardLocalEnv : List String :=
  ["self", "hrv", "pv", "pv_inc", "use_pv_inc", "x", "combined"]

/-- Lines 96–97 of `Resnet_model.py`: when the concatenated width differs
from the current `fc.in_features` the code runs
`self.fc = nn.Linear(combined.shape[1], predict_length)`; the right-hand
side evaluates the name `predict_length` in `forward`'s scope and the
module globals before anything is assigned.  The returned number is the
`in_features` the layer would have after the statement. -/
def fcReassignStep (fcIn combinedWidth : Nat) : Except PyErr Nat :=
  if fcIn != combinedWidth then
    (lookupName (forwardLocalEnv ++ resnetModuleGlobals) "predict_length").map
      (fun _ => combinedWidth)
  else .ok fcIn

/-- `ResNetModel.forward` at shape level, granting a defined class: the
identity `initial`, the four stages of four blocks (12, 24, 48 and 96
channels, `layers = [4,4,4,4]`), adaptive max-pool; then the fusion branch:
with `use_pv_inc` true, `pv_inc[:, :, 0]` and `[:, :, 1]` are concatenated
with the un-flattened 4-d pooled tensor (a rank mismatch for `torch.cat`);
with it false, both tensors are flattened and concatenated, the adaptive
width step runs, and `fc` maps to `predict_length` outputs. -/
def resnetForwardShape (fcIn : Nat) (hrv pvShape : List Nat) (usePvInc : Bool)
    (predictLength : Nat) : Except PyErr (List Nat) := do
  let s1 ← stageForward 12 4 hrv
  let s2 ← stageForward 24 4 s1
  let s3 ← stageForward 48 4 s2
  let s4 ← stageForward 96 4 s3
  if usePvInc then
    match pvShape with
    | [_, _, 2] => .error .valueError
    | _ => .error .indexError
  else
    let p ← poolFlatten s4
    let pvF ← flattenFrom1 pvShape
    let comb ← concatDim1 p pvF
    let _ ← fcReassignStep fcIn (comb.getD 1 0)
    .ok [comb.getD 0 0, predictLength]

/-- C8: the model example cannot run on the code as written.  Loading
`Resnet_model.py` already raises NameError — the name `pv` is unbound when
`forward`'s default-argument expressions are evaluated at class-definition
time — and even granting the class, a forward pass on imagery shaped
(4,12,3,3) and PV history (4,12) with use_pv_inc false raises NameError at
the first residual block's `F.relu` (no `F` was ever imported) instead of
returning a (4, predict_length) output. -/
theorem modelForward_example_fails :
    loadResnetModule = .error (.nameError "pv") ∧
    resnetForwardShape 108 [4, 12, 3, 3] [4, 12] false 48 = .error (.nameError "F") := by
  constructor <;> rfl

/-- C9: forward is not a repeatable pure transform on the code as written:
every call raises NameError at `F.relu` before producing an output, and
the adaptive-width branch of lines 96–97 itself raises NameError on
`predict_length` before any assignment — so `self.fc` is never mutated,
but no call with a mismatched width ever returns either (a matching width
leaves `fc` untouched). -/
theorem modelForward_fc_step :
    fcReassignStep 108 120 = .error (.nameError "predict_length") ∧
    fcReassignStep 108 108 = .ok 108 ∧
    resnetForwardShape 108 [4, 12, 3, 3] [4, 12, 2] true 48 = .error (.nameError "F") := by
  refine ⟨rfl, rfl, rfl⟩
